import Mathlib

/-!
Verification of `send_location.py` (ThingsBoard location telemetry sender).

The Python program is embedded shallowly:
* floats become `ℚ` (the program only adds, subtracts, compares and rounds);
* the HTTP layer is abstracted as an `HttpOutcome` parameter: either the
  `requests.post` call raises a `RequestException`, or it yields a final
  response with a status code and body text;
* the randomness of the simulator is a parameter: each tick consumes one
  `TickDraws` record holding the values the Python `random` calls produced.
-/

namespace SendLocation

/-- JSON values occurring in the telemetry payload. -/
inductive JVal where
  | str (s : String)
  | int (n : ℤ)
  | num (q : ℚ)
deriving DecidableEq, Repr

/-- The payload dict built by `send_telemetry` (send_location.py lines 44-57),
as an insertion-ordered association list: the four base entries
`_type`/`lat`/`lon`/`tst`, then `batt`, `acc`, `alt`, each appended only when
the corresponding argument is not `None`. -/
def buildPayload (lat lon : ℚ) (tst : ℤ) (batt acc alt : Option ℤ) :
    List (String × JVal) :=
  [("_type", JVal.str "location"), ("lat", JVal.num lat),
   ("lon", JVal.num lon), ("tst", JVal.int tst)]
    ++ (match batt with | some b => [("batt", JVal.int b)] | none => [])
    ++ (match acc with | some a => [("acc", JVal.int a)] | none => [])
    ++ (match alt with | some a => [("alt", JVal.int a)] | none => [])

/-- The keys of the serialized payload, in serialization order. -/
def payloadKeys (lat lon : ℚ) (tst : ℤ) (batt acc alt : Option ℤ) :
    List String :=
  (buildPayload lat lon tst batt acc alt).map Prod.fst

/-- An HTTP response as seen by the program: final status code and body text. -/
structure Resp where
  status : ℕ
  text : String
deriving DecidableEq, Repr

/-- Outcome of the single `requests.post` call inside `send_telemetry`:
either the call raises a `requests.exceptions.RequestException`
(connection error, timeout, ...) or it returns a final response. -/
inductive HttpOutcome where
  | requestError (msg : String)
  | response (r : Resp)
deriving DecidableEq, Repr

/-- `Response.raise_for_status` raises `requests.exceptions.HTTPError`
exactly when `400 <= status_code < 600` (client or server error). -/
def raisesForStatus (s : ℕ) : Bool := decide (400 ≤ s) && decide (s < 600)

/-- Result of one `send_telemetry` call (lines 63-69): the response is
returned unless the POST itself raised or `raise_for_status` raised, in
which case the exception is caught, a diagnostic is printed, and `None`
is returned. -/
def sendTelemetryResult (o : HttpOutcome) : Option Resp :=
  match o with
  | .requestError _ => none
  | .response r => if raisesForStatus r.status then none else some r

/-- Whether one `send_telemetry` call prints the
`Error sending telemetry: ...` diagnostic (line 68): exactly when the
`try` block raised. -/
def sendPrintsDiagnostic (o : HttpOutcome) : Bool :=
  match o with
  | .requestError _ => true
  | .response r => raisesForStatus r.status

/-- Number of HTTP POST attempts one `send_telemetry` call performs: the body
contains a single unconditional `requests.post` and no retry loop. -/
def sendPostAttempts (_ : HttpOutcome) : ℕ := 1

/-- Python truthiness of a `requests.Response`: `Response.__bool__` returns
`self.ok`, i.e. `status_code < 400`. -/
def respTruthy (r : Resp) : Bool := decide (r.status < 400)

/-- The success test both callers apply to `send_telemetry`'s result:
`response and response.status_code == 200` (lines 118 and 221). -/
def callerSuccess (res : Option Resp) : Bool :=
  match res with
  | none => false
  | some r => respTruthy r && decide (r.status = 200)

/-! ## Movement simulator (`simulate_movement`, lines 72-130) -/

/-- Mutable state of `simulate_movement`: `current_lat`, `current_lon`,
`battery` (initialised to 100). -/
structure SimState where
  lat : ℚ
  lon : ℚ
  battery : ℚ
deriving DecidableEq, Repr

/-- The values drawn from `random` during one tick, plus the HTTP outcome of
that tick's send: `random.uniform(-0.001, 0.001)` twice, then
`random.uniform(0.1, 0.5)`, then `random.randint(5, 20)` and
`random.randint(50, 100)`. -/
structure TickDraws where
  dLat : ℚ
  dLon : ℚ
  drain : ℚ
  accuracy : ℤ
  altitude : ℤ
  outcome : HttpOutcome
deriving DecidableEq, Repr

/-- Python `round(q, 6)`: round to 6 decimal places, ties to even. -/
def roundHalfEven (q : ℚ) : ℤ :=
  let f : ℤ := ⌊q⌋
  let r : ℚ := q - f
  if r < 1/2 then f
  else if 1/2 < r then f + 1
  else if f % 2 = 0 then f else f + 1

/-- `round(x, 6)` on the rational model. -/
def round6 (q : ℚ) : ℚ := (roundHalfEven (q * 1000000) : ℚ) / 1000000

/-- Python `int()` applied to a float: truncation toward zero. -/
def pyTrunc (q : ℚ) : ℤ := if 0 ≤ q then ⌊q⌋ else -⌊-q⌋

/-- The arguments `simulate_movement` passes to `send_telemetry` on one tick
(lines 109-116): rounded position, truncated battery, and the drawn
accuracy and altitude — all three optional parameters supplied. -/
structure SentReading where
  lat : ℚ
  lon : ℚ
  batt : ℤ
  acc : ℤ
  alt : ℤ
deriving DecidableEq, Repr

/-- One simulation tick (lines 96-127): mutate the position by the drawn
deltas, drain the battery clamped at 0, and call the sender with the
rounded position and truncated battery; the unrounded state is what the
next tick starts from. -/
def simTick (s : SimState) (d : TickDraws) : SentReading × SimState :=
  let lat' := s.lat + d.dLat
  let lon' := s.lon + d.dLon
  let batt' := max 0 (s.battery - d.drain)
  (⟨round6 lat', round6 lon', pyTrunc batt', d.accuracy, d.altitude⟩,
   ⟨lat', lon', batt'⟩)

/-- Run the simulator body over a list of tick draws, collecting the readings
passed to the sender and the final state. -/
def simRun (s : SimState) : List TickDraws → List SentReading × SimState
  | [] => ([], s)
  | d :: ds =>
      let t := simTick s d
      let rest := simRun t.2 ds
      (t.1 :: rest.1, rest.2)

/-- Initial simulator state (lines 89-91): starting position, battery 100. -/
def initState (lat lon : ℚ) : SimState := ⟨lat, lon, 100⟩

/-- `update_count` at the end of a run (lines 94, 118-119, 130): starts at 0
and is incremented exactly when the tick's send satisfies
`response and response.status_code == 200`. -/
def simUpdateCount (draws : List TickDraws) : ℕ :=
  draws.foldl
    (fun c d =>
      if callerSuccess (sendTelemetryResult d.outcome) then c + 1 else c) 0

/-- Battery value after a list of per-tick drains (line 102:
`battery = max(0, battery - random.uniform(0.1, 0.5))`). -/
def batteryAfter (start : ℚ) (drains : List ℚ) : ℚ :=
  drains.foldl (fun b d => max 0 (b - d)) start

/-- The `while (time.time() - start_time) < duration` loop (line 96), with the
idealised clock of the spec: each tick's work is negligible and the
`time.sleep(interval)` at line 127 advances the clock by `interval`.
`fuel` bounds how many iterations are examined; the result is the number
of ticks performed. -/
def loopTicks : ℕ → ℤ → ℤ → ℤ → ℕ
  | 0, _, _, _ => 0
  | fuel + 1, duration, interval, elapsed =>
      if elapsed < duration then
        loopTicks fuel duration interval (elapsed + interval) + 1
      else 0

/-! ## CLI driver (`main`, lines 133-235) -/

/-- The parsed arguments, after `argparse` succeeded: `--token` is
`required=True`, so it is present; `--lat`/`--lon`/`--batt`/`--acc`/`--alt`
default to `None`; `--simulate` is a flag; `--duration` defaults to 60 and
`--interval` to 5. -/
structure Args where
  token : String
  server : String
  lat : Option ℚ
  lon : Option ℚ
  batt : Option ℤ
  acc : Option ℤ
  alt : Option ℤ
  simulate : Bool
  duration : ℤ
  interval : ℤ
deriving DecidableEq, Repr

/-- What `main` does after parsing: a parser-level usage error
(`parser.error`, which prints usage and exits before any network call),
or a dispatch to the simulator or to a single send. -/
inductive Dispatch where
  | usageError (msg : String)
  | runSimulation (server token : String) (lat lon : ℚ) (duration interval : ℤ)
  | singleSend (server token : String) (lat lon : ℚ) (batt acc alt : Option ℤ)
deriving DecidableEq, Repr

/-- The dispatch logic of `main` (lines 192-219). -/
def mainDispatch (a : Args) : Dispatch :=
  if a.simulate then
    match a.lat, a.lon with
    | some la, some lo =>
        .runSimulation a.server a.token la lo a.duration a.interval
    | _, _ => .usageError "--simulate requires --lat and --lon for starting position"
  else
    match a.lat, a.lon with
    | some la, some lo => .singleSend a.server a.token la lo a.batt a.acc a.alt
    | _, _ => .usageError "--lat and --lon are required (unless using --simulate)"

/-- Number of HTTP POSTs a dispatch performs, given how many ticks a
simulation run would execute: `parser.error` exits before any call to
`send_telemetry`; the single-send path calls it once; the simulator calls
it once per tick. -/
def dispatchPosts (d : Dispatch) (simTickCount : ℕ) : ℕ :=
  match d with
  | .usageError _ => 0
  | .runSimulation _ _ _ _ _ _ => simTickCount
  | .singleSend _ _ _ _ _ _ _ => 1

/-- Python truthiness of an `Optional[int]` argument, as used by
`if args.batt:` etc. (lines 225-230): `None` and `0` are falsy. -/
def intTruthy : Option ℤ → Bool
  | none => false
  | some n => decide (n ≠ 0)

/-- What the single-send success block (lines 222-230) prints: latitude and
longitude always, and a battery/accuracy/altitude line only when the
corresponding argument is truthy. -/
structure SuccessBlock where
  latLine : ℚ
  lonLine : ℚ
  battLine : Option ℤ
  accLine : Option ℤ
  altLine : Option ℤ
deriving DecidableEq, Repr

/-- The success block printed by `main` on `response and status_code == 200`. -/
def successBlock (lat lon : ℚ) (batt acc alt : Option ℤ) : SuccessBlock :=
  ⟨lat, lon,
   if intTruthy batt then batt else none,
   if intTruthy acc then acc else none,
   if intTruthy alt then alt else none⟩

/-- What single-send mode reports about the send result (lines 221-235):
whether the success block is printed, and, on failure, whether the
`Status code:` / `Response:` lines are printed (they require `if response:`,
i.e. a non-`None`, truthy response). -/
structure SingleReport where
  success : Bool
  statusBody : Option (ℕ × String)
deriving DecidableEq, Repr

/-- The failure/success report of single-send mode applied to
`send_telemetry`'s result. -/
def singleSendReport (res : Option Resp) : SingleReport :=
  if callerSuccess res then ⟨true, none⟩
  else
    ⟨false,
     match res with
     | some r => if respTruthy r then some (r.status, r.text) else none
     | none => none⟩

/-! ## Theorems -/

/-- C1: for every call to the telemetry sender, the serialized payload
contains the constant type tag, `lat`, `lon` and `tst`, and contains
`batt`/`acc`/`alt` if and only if the corresponding optional argument was
supplied (the key is absent, not null or zero, when not supplied). -/
theorem payload_optional_keys_iff_supplied
    (lat lon : ℚ) (tst : ℤ) (batt acc alt : Option ℤ) :
    "_type" ∈ payloadKeys lat lon tst batt acc alt ∧
    "lat" ∈ payloadKeys lat lon tst batt acc alt ∧
    "lon" ∈ payloadKeys lat lon tst batt acc alt ∧
    "tst" ∈ payloadKeys lat lon tst batt acc alt ∧
    ("batt" ∈ payloadKeys lat lon tst batt acc alt ↔ batt.isSome) ∧
    ("acc" ∈ payloadKeys lat lon tst batt acc alt ↔ acc.isSome) ∧
    ("alt" ∈ payloadKeys lat lon tst batt acc alt ↔ alt.isSome) := by
  cases batt <;> cases acc <;> cases alt <;>
    simp [payloadKeys, buildPayload]

/-- Witness for C1 at a concrete call: with only `batt` supplied, the key
`batt` is serialized and the base keys are present. -/
theorem payload_optional_keys_witness :
    "batt" ∈ payloadKeys 34 (-118) 1700000000 (some 50) none none ∧
    "tst" ∈ payloadKeys 34 (-118) 1700000000 (some 50) none none :=
  ⟨(payload_optional_keys_iff_supplied 34 (-118) 1700000000
      (some 50) none none).2.2.2.2.1.mpr (by decide),
   (payload_optional_keys_iff_supplied 34 (-118) 1700000000
      (some 50) none none).2.2.2.1⟩

/-- C2 counterexample: a 204 response (a 2xx status) is returned by the
sender, yet neither caller treats it as a successful send — the simulator
does not increment `update_count` and single-send mode prints the failure
report, because both test `status_code == 200`. -/
theorem twoxx_not_success_counterexample :
    sendTelemetryResult (.response ⟨204, ""⟩) = some ⟨204, ""⟩ ∧
    callerSuccess (sendTelemetryResult (.response ⟨204, ""⟩)) = false ∧
    simUpdateCount [⟨0, 0, 0, 0, 0, .response ⟨204, ""⟩⟩] = 0 ∧
    (singleSendReport (sendTelemetryResult (.response ⟨204, ""⟩))).success
      = false := by
  refine ⟨rfl, rfl, rfl, rfl⟩

/-- C2 amended: for every 2xx response the sender returns the response to
the caller without validating the body, but the callers treat the send as
successful only when the status code is exactly 200; other 2xx statuses
are treated as failed sends. -/
theorem sender_returns_2xx_caller_requires_200 (s : ℕ) (b : String)
    (h2 : 200 ≤ s) (h3 : s < 300) :
    sendTelemetryResult (.response ⟨s, b⟩) = some ⟨s, b⟩ ∧
    (callerSuccess (sendTelemetryResult (.response ⟨s, b⟩)) = true ↔
      s = 200) ∧
    ∀ b2 : String,
      callerSuccess (sendTelemetryResult (.response ⟨s, b⟩)) =
        callerSuccess (sendTelemetryResult (.response ⟨s, b2⟩)) := by
  have hr : raisesForStatus s = false := by
    simp [raisesForStatus]
    omega
  refine ⟨by simp [sendTelemetryResult, hr], ?_, ?_⟩
  · simp [sendTelemetryResult, hr, callerSuccess, respTruthy]
    omega
  · intro b2
    simp [sendTelemetryResult, hr, callerSuccess, respTruthy]

/-- Witness for the amended C2 at status 200. -/
theorem sender_returns_2xx_witness :
    sendTelemetryResult (.response ⟨200, "ok"⟩) = some ⟨200, "ok"⟩ :=
  (sender_returns_2xx_caller_requires_200 200 "ok" (by decide) (by decide)).1

/-- C3 counterexample: a 304 response has a non-2xx status, yet
`raise_for_status` does not raise for it, so the sender returns the
response instead of catching, printing a diagnostic and returning the
failure sentinel. -/
theorem non2xx_not_all_caught_counterexample :
    sendTelemetryResult (.response ⟨304, "not modified"⟩) =
      some ⟨304, "not modified"⟩ ∧
    sendPrintsDiagnostic (.response ⟨304, "not modified"⟩) = false :=
  ⟨rfl, rfl⟩

/-- C3 amended: every network error or timeout, and every 4xx/5xx status
(the statuses `raise_for_status` raises for), is caught at the sender
boundary, a diagnostic is printed, and the failure sentinel `None` is
returned; no exception propagates, and exactly one HTTP POST attempt is
made per call. -/
theorem send_failure_sentinel_and_single_attempt :
    (∀ msg : String,
      sendTelemetryResult (.requestError msg) = none ∧
      sendPrintsDiagnostic (.requestError msg) = true) ∧
    (∀ (s : ℕ) (b : String), 400 ≤ s → s < 600 →
      sendTelemetryResult (.response ⟨s, b⟩) = none ∧
      sendPrintsDiagnostic (.response ⟨s, b⟩) = true) ∧
    ∀ o : HttpOutcome, sendPostAttempts o = 1 := by
  refine ⟨fun msg => ⟨rfl, rfl⟩, ?_, fun o => rfl⟩
  intro s b h4 h6
  have hr : raisesForStatus s = true := by
    simp only [raisesForStatus, Bool.and_eq_true, decide_eq_true_eq]
    omega
  exact ⟨by simp [sendTelemetryResult, hr], by simp [sendPrintsDiagnostic, hr]⟩

/-- Witness for the amended C3 at a concrete 404 response. -/
theorem send_failure_sentinel_witness :
    sendTelemetryResult (.response ⟨404, "not found"⟩) = none ∧
    sendPrintsDiagnostic (.response ⟨404, "not found"⟩) = true :=
  send_failure_sentinel_and_single_attempt.2.1 404 "not found"
    (by decide) (by decide)

/-- Helper: the counting fold of `simulate_movement` starting from any
accumulator. -/
theorem simUpdateCount_foldl_eq (draws : List TickDraws) :
    ∀ n : ℕ,
      draws.foldl
        (fun c d =>
          if callerSuccess (sendTelemetryResult d.outcome) then c + 1 else c)
        n =
      n + draws.countP (fun d => callerSuccess (sendTelemetryResult d.outcome)) := by
  induction draws with
  | nil => intro n; simp
  | cons d ds ih =>
      intro n
      by_cases h : callerSuccess (sendTelemetryResult d.outcome) = true
      · simp [List.countP_cons, h, ih]
        omega
      · simp [List.countP_cons, h, ih]

/-- C4: at the end of every simulation run the reported `update_count`
equals the number of ticks whose send satisfied the success test, the
counter being incremented only on those ticks; in particular a run in
which every send fails completes normally and reports `update_count = 0`. -/
theorem update_count_eq_success_count (draws : List TickDraws) :
    simUpdateCount draws =
      draws.countP (fun d => callerSuccess (sendTelemetryResult d.outcome)) ∧
    ((∀ d ∈ draws, callerSuccess (sendTelemetryResult d.outcome) = false) →
      simUpdateCount draws = 0) := by
  have h := simUpdateCount_foldl_eq draws 0
  refine ⟨by simpa [simUpdateCount] using h, fun hall => ?_⟩
  have hz : draws.countP
      (fun d => callerSuccess (sendTelemetryResult d.outcome)) = 0 := by
    rw [List.countP_eq_zero]
    intro d hd
    simp [hall d hd]
  simpa [simUpdateCount, hz] using h

/-- Witness for C4: a two-tick run whose sends both fail (a connection
error and a 500 response) reports zero updates. -/
theorem update_count_all_fail_witness :
    simUpdateCount
      [⟨0, 0, 0, 0, 0, .requestError "connection refused"⟩,
       ⟨0, 0, 0, 0, 0, .response ⟨500, "err"⟩⟩] = 0 :=
  (update_count_eq_success_count
    [⟨0, 0, 0, 0, 0, .requestError "connection refused"⟩,
     ⟨0, 0, 0, 0, 0, .response ⟨500, "err"⟩⟩]).2 (by decide)

/-- Helper: the clamped battery fold never leaves the nonnegative range. -/
theorem batteryAfter_nonneg (drains : List ℚ) :
    ∀ start : ℚ, 0 ≤ start → 0 ≤ batteryAfter start drains := by
  induction drains with
  | nil => intro start h; simpa [batteryAfter] using h
  | cons d ds ih =>
      intro start h
      have : batteryAfter start (d :: ds) = batteryAfter (max 0 (start - d)) ds := rfl
      rw [this]
      exact ih _ (le_max_left 0 _)

/-- Helper: one more tick applies one more clamped decrement. -/
theorem batteryAfter_append (start : ℚ) (xs : List ℚ) (d : ℚ) :
    batteryAfter start (xs ++ [d]) = max 0 (batteryAfter start xs - d) := by
  simp [batteryAfter, List.foldl_append]

/-- C5: across every simulation run the battery is monotonically
non-increasing from tick to tick, each tick subtracting a drain drawn from
the interval `[0.1, 0.5]`, and it never goes below 0 however many ticks
occur and however large the cumulative drain. -/
theorem battery_monotone_nonneg (drains : List ℚ)
    (_hall : ∀ d ∈ drains, 1/10 ≤ d ∧ d ≤ 1/2) :
    0 ≤ batteryAfter 100 drains ∧
    ∀ d : ℚ, 1/10 ≤ d → d ≤ 1/2 →
      batteryAfter 100 (drains ++ [d]) ≤ batteryAfter 100 drains := by
  have h0 : 0 ≤ batteryAfter 100 drains :=
    batteryAfter_nonneg drains 100 (by norm_num)
  refine ⟨h0, fun d hd1 hd2 => ?_⟩
  rw [batteryAfter_append]
  have hd0 : (0:ℚ) ≤ d := le_trans (by norm_num) hd1
  exact max_le h0 (sub_le_self _ hd0)

/-- Witness for C5: a concrete three-tick run with maximal drains stays
nonnegative and one further tick does not increase it. -/
theorem battery_monotone_witness :
    0 ≤ batteryAfter 100 [1/2, 1/2, 1/2] ∧
    batteryAfter 100 ([1/2, 1/2, 1/2] ++ [1/10]) ≤
      batteryAfter 100 [1/2, 1/2, 1/2] :=
  ⟨(battery_monotone_nonneg [1/2, 1/2, 1/2] (by norm_num)).1,
   (battery_monotone_nonneg [1/2, 1/2, 1/2] (by norm_num)).2 (1/10)
     (by norm_num) (by norm_num)⟩

/-- C6: the simulation loop is check-then-tick — a tick executes only when
the elapsed time is strictly below the duration, zero ticks happen exactly
when the duration is not positive at entry, and with duration 12 and
interval 5 exactly 3 ticks are performed. -/
theorem loop_check_then_tick :
    (∀ (fuel : ℕ) (d i e : ℤ), 0 < loopTicks fuel d i e → e < d) ∧
    (∀ (fuel : ℕ) (d i : ℤ), loopTicks (fuel + 1) d i 0 = 0 ↔ d ≤ 0) ∧
    loopTicks 12 12 5 0 = 3 := by
  refine ⟨?_, ?_, by decide⟩
  · intro fuel d i e h
    cases fuel with
    | zero => simp [loopTicks] at h
    | succ n =>
        by_cases he : e < d
        · exact he
        · simp [loopTicks, he] at h
  · intro fuel d i
    constructor
    · intro h
      by_contra hd
      push_neg at hd
      simp [loopTicks, hd] at h
    · intro hd
      have hnd : ¬ (0:ℤ) < d := by omega
      simp [loopTicks, hnd]

/-- Witness for C6: the loop that performed 3 ticks indeed started with the
elapsed time below the duration. -/
theorem loop_check_then_tick_witness : (0:ℤ) < 12 :=
  loop_check_then_tick.1 12 12 5 0 (by decide)

/-- C7: every CLI invocation missing `--lat` or `--lon`, in either mode,
is rejected by a parser-level usage error before any network call, so the
number of HTTP POSTs performed is zero. -/
theorem missing_latlon_usage_error_no_posts (a : Args) (n : ℕ)
    (h : a.lat = none ∨ a.lon = none) :
    (∃ msg, mainDispatch a = .usageError msg) ∧
    dispatchPosts (mainDispatch a) n = 0 := by
  obtain ⟨tok, srv, lat, lon, batt, acc, alt, sim, dur, itv⟩ := a
  cases sim <;> cases lat <;> cases lon <;>
    simp_all [mainDispatch, dispatchPosts]

/-- Witness for C7: a concrete non-simulate invocation with `--lon` but no
`--lat` is a usage error with zero POSTs. -/
theorem missing_latlon_witness :
    (∃ msg,
      mainDispatch
        ⟨"T", "http://52.42.86.26:8081", none, some (-118), none, none, none,
         false, 60, 5⟩ = .usageError msg) ∧
    dispatchPosts
      (mainDispatch
        ⟨"T", "http://52.42.86.26:8081", none, some (-118), none, none, none,
         false, 60, 5⟩) 0 = 0 :=
  missing_latlon_usage_error_no_posts
    ⟨"T", "http://52.42.86.26:8081", none, some (-118), none, none, none,
     false, 60, 5⟩ 0 (Or.inl rfl)

/-- C8 counterexample: a 404 response has a non-2xx status, but
`raise_for_status` converts it to the failure sentinel inside the sender,
so single-send mode prints only the generic failure line — the status code
and body text are not printed. -/
theorem non2xx_status_body_not_printed_counterexample :
    sendTelemetryResult (.response ⟨404, "oops"⟩) = none ∧
    singleSendReport (sendTelemetryResult (.response ⟨404, "oops"⟩)) =
      ⟨false, none⟩ :=
  ⟨rfl, rfl⟩

/-- C8 amended: non-2xx responses are treated like transport errors for
control flow, but 4xx/5xx statuses are caught inside the sender, so in
single-send mode only the generic failure line is printed for them; the
status code and body text are printed exactly for the responses the sender
does return that fail the 200 test (truthy statuses below 400 other than
200). -/
theorem single_send_failure_report (s : ℕ) (b : String) :
    (400 ≤ s → s < 600 →
      singleSendReport (sendTelemetryResult (.response ⟨s, b⟩)) =
        ⟨false, none⟩) ∧
    (s < 400 → s ≠ 200 →
      singleSendReport (sendTelemetryResult (.response ⟨s, b⟩)) =
        ⟨false, some (s, b)⟩) ∧
    singleSendReport none = ⟨false, none⟩ := by
  refine ⟨fun h4 h6 => ?_, fun hlt hne => ?_, rfl⟩
  · have hr : raisesForStatus s = true := by
      simp [raisesForStatus]
      omega
    simp [sendTelemetryResult, hr, singleSendReport, callerSuccess]
  · have hr : raisesForStatus s = false := by
      simp [raisesForStatus]
      omega
    have hcs : callerSuccess (some ⟨s, b⟩) = false := by
      simp [callerSuccess, respTruthy, hne]
    simp [sendTelemetryResult, hr, singleSendReport, hcs, respTruthy, hlt]

/-- Witness for the amended C8: a 500 response yields only the generic
failure report, while a 304 response yields the status/body lines. -/
theorem single_send_failure_report_witness :
    singleSendReport (sendTelemetryResult (.response ⟨500, "boom"⟩)) =
      ⟨false, none⟩ ∧
    singleSendReport (sendTelemetryResult (.response ⟨304, "nm"⟩)) =
      ⟨false, some (304, "nm")⟩ :=
  ⟨(single_send_failure_report 500 "boom").1 (by decide) (by decide),
   (single_send_failure_report 304 "nm").2.1 (by decide) (by decide)⟩

/-- C9 counterexample: with the battery flag supplied as 0, the success
block omits the battery line, because the code tests Python truthiness
rather than presence. -/
theorem success_block_zero_batt_counterexample :
    successBlock 34 (-118) (some 0) none none =
      ⟨34, -118, none, none, none⟩ :=
  rfl

/-- Helper: a truthiness-guarded line is present exactly for a supplied
nonzero value. -/
theorem truthyLine_isSome (o : Option ℤ) :
    (if intTruthy o then o else none).isSome = true ↔
      ∃ b, o = some b ∧ b ≠ 0 := by
  cases o with
  | none => simp [intTruthy]
  | some b =>
      by_cases hb : b = 0 <;> simp [intTruthy, hb]

/-- C9 amended: the success block always shows the latitude and longitude,
and contains a battery/accuracy/altitude line if and only if the
corresponding flag was supplied with a nonzero value (Python truthiness:
supplying 0 omits the line); with none supplied all three are omitted. -/
theorem success_block_truthy_lines (lat lon : ℚ) (batt acc alt : Option ℤ) :
    (successBlock lat lon batt acc alt).latLine = lat ∧
    (successBlock lat lon batt acc alt).lonLine = lon ∧
    ((successBlock lat lon batt acc alt).battLine.isSome = true ↔
      ∃ b, batt = some b ∧ b ≠ 0) ∧
    ((successBlock lat lon batt acc alt).accLine.isSome = true ↔
      ∃ a, acc = some a ∧ a ≠ 0) ∧
    ((successBlock lat lon batt acc alt).altLine.isSome = true ↔
      ∃ a, alt = some a ∧ a ≠ 0) ∧
    successBlock lat lon none none none = ⟨lat, lon, none, none, none⟩ :=
  ⟨rfl, rfl, truthyLine_isSome batt, truthyLine_isSome acc,
   truthyLine_isSome alt, rfl⟩

/-- Witness for the amended C9: with battery 50 supplied the battery line is
present. -/
theorem success_block_truthy_lines_witness :
    (successBlock 34 (-118) (some 50) none none).battLine.isSome = true :=
  (success_block_truthy_lines 34 (-118) (some 50) none none).2.2.1.mpr
    ⟨50, rfl, by decide⟩

/-- Helper: every reading a simulation run hands to the sender has its
battery in `[0, 100]` and carries the drawn accuracy and altitude, provided
the starting battery is in `[0, 100]` and the drains are nonnegative. -/
theorem simRun_reading_bounds (draws : List TickDraws) :
    ∀ s : SimState, 0 ≤ s.battery → s.battery ≤ 100 →
      (∀ d ∈ draws, 0 ≤ d.drain ∧ 5 ≤ d.accuracy ∧ d.accuracy ≤ 20 ∧
        50 ≤ d.altitude ∧ d.altitude ≤ 100) →
      ∀ r ∈ (simRun s draws).1,
        0 ≤ r.batt ∧ r.batt ≤ 100 ∧ 5 ≤ r.acc ∧ r.acc ≤ 20 ∧
          50 ≤ r.alt ∧ r.alt ≤ 100 := by
  induction draws with
  | nil => intro s _ _ _ r hr; simp [simRun] at hr
  | cons d ds ih =>
      intro s h0 h100 hall r hr
      have hd := hall d (List.mem_cons_self d ds)
      have hds := fun x hx => hall x (List.mem_cons_of_mem d hx)
      have hb0 : 0 ≤ max 0 (s.battery - d.drain) := le_max_left 0 _
      have hb100 : max 0 (s.battery - d.drain) ≤ 100 :=
        max_le (by norm_num) (by linarith [hd.1])
      have hsplit : r = (simTick s d).1 ∨ r ∈ (simRun (simTick s d).2 ds).1 := by
        simpa [simRun] using hr
      rcases hsplit with rfl | hmem
      · refine ⟨?_, ?_, hd.2.1, hd.2.2.1, hd.2.2.2.1, hd.2.2.2.2⟩
        · show 0 ≤ pyTrunc (max 0 (s.battery - d.drain))
          rw [pyTrunc, if_pos hb0]
          exact Int.le_floor.mpr (by exact_mod_cast hb0)
        · show pyTrunc (max 0 (s.battery - d.drain)) ≤ 100
          rw [pyTrunc, if_pos hb0]
          have hfl : ((⌊max 0 (s.battery - d.drain)⌋ : ℤ) : ℚ) ≤ 100 :=
            le_trans (Int.floor_le _) hb100
          exact_mod_cast hfl
      · exact ih (simTick s d).2 hb0 hb100 hds r hmem

/-- C10: in simulation mode every send supplies all three optional fields —
the battery value sent is an integer in `[0, 100]` (the state starts at
100), accuracy is in `[5, 20]` and altitude in `[50, 100]`; the position
passed to the sender is the updated state rounded to 6 decimal places,
while the unrounded state is what carries over to the next tick. -/
theorem sim_readings_bounds_and_rounding (draws : List TickDraws)
    (lat lon : ℚ)
    (hall : ∀ d ∈ draws, 1/10 ≤ d.drain ∧ d.drain ≤ 1/2 ∧ 5 ≤ d.accuracy ∧
      d.accuracy ≤ 20 ∧ 50 ≤ d.altitude ∧ d.altitude ≤ 100) :
    (∀ r ∈ (simRun (initState lat lon) draws).1,
      0 ≤ r.batt ∧ r.batt ≤ 100 ∧ 5 ≤ r.acc ∧ r.acc ≤ 20 ∧
        50 ≤ r.alt ∧ r.alt ≤ 100) ∧
    (∀ (s : SimState) (d : TickDraws),
      (simTick s d).1.lat = round6 ((simTick s d).2.lat) ∧
      (simTick s d).1.lon = round6 ((simTick s d).2.lon) ∧
      (simTick s d).2.lat = s.lat + d.dLat ∧
      (simTick s d).2.lon = s.lon + d.dLon ∧
      (simTick s d).2.battery = max 0 (s.battery - d.drain)) ∧
    (∀ (r : SentReading) (tst : ℤ),
      payloadKeys r.lat r.lon tst (some r.batt) (some r.acc) (some r.alt) =
        ["_type", "lat", "lon", "tst", "batt", "acc", "alt"]) := by
  refine ⟨?_, fun s d => ⟨rfl, rfl, rfl, rfl, rfl⟩, fun r tst => rfl⟩
  apply simRun_reading_bounds draws (initState lat lon) (by norm_num [initState])
    (by norm_num [initState])
  intro d hd
  have hbounds := hall d hd
  exact ⟨by linarith [hbounds.1], hbounds.2.2⟩

/-- Helper: the reading a concrete one-tick run sends — position rounded to
(34.001, -118.001), battery truncated to 99, the drawn accuracy and
altitude. -/
theorem sim_tick_example :
    (simRun (initState 34 (-118))
      [⟨1/1000, -1/1000, 3/10, 10, 75, .response ⟨200, ""⟩⟩]).1 =
    [⟨34001/1000, -118001/1000, 99, 10, 75⟩] := by
  norm_num [simRun, simTick, initState, round6, roundHalfEven, pyTrunc, max_def]

/-- Witness for C10: a one-tick run from position (34, -118) with drain 0.3,
accuracy 10 and altitude 75 sends the reading
(34.001, -118.001, 99, 10, 75), whose fields lie in the stated ranges. -/
theorem sim_readings_witness :
    0 ≤ (SentReading.mk (34001/1000) (-118001/1000) 99 10 75).batt ∧
    (SentReading.mk (34001/1000) (-118001/1000) 99 10 75).batt ≤ 100 ∧
    5 ≤ (SentReading.mk (34001/1000) (-118001/1000) 99 10 75).acc ∧
    (SentReading.mk (34001/1000) (-118001/1000) 99 10 75).acc ≤ 20 ∧
    50 ≤ (SentReading.mk (34001/1000) (-118001/1000) 99 10 75).alt ∧
    (SentReading.mk (34001/1000) (-118001/1000) 99 10 75).alt ≤ 100 :=
  (sim_readings_bounds_and_rounding
    [⟨1/1000, -1/1000, 3/10, 10, 75, .response ⟨200, ""⟩⟩] 34 (-118)
    (by
      intro d hd
      rw [List.mem_singleton] at hd
      subst hd
      refine ⟨by norm_num, by norm_num, by norm_num, by norm_num,
        by norm_num, by norm_num⟩)).1
    ⟨34001/1000, -118001/1000, 99, 10, 75⟩
    (by rw [sim_tick_example]; exact List.mem_singleton.mpr rfl)

end SendLocation
